import Mathlib

/-!
Verification of the PID-file lock of the python-daemon repository.

The development shallowly embeds:
  * the PID-file primitives and the PIDLockFile class of the
    daemon.pidlockfile module (modelled from the design spec, since only
    the module's tests are present in the source tree), and
  * the TimeoutPIDLockFile class of daemon/pidfile.py (embedded from the
    source file).

The filesystem is modelled as a map from paths to file states; a file
state is absent, present with a content string, or access-denied with an
errno (representing any filesystem failure other than not-found).
Lock operations return a result, the final world, and a trace of the
observable events they performed, so that ordering claims are statable.
-/

namespace PythonDaemon

/-- errno for a missing file. -/
def ENOENT : Nat := 2

/-- errno for an operation denied by permissions. -/
def EACCES : Nat := 13

/-- errno for a busy resource. -/
def EBUSY : Nat := 16

/-- errno raised when an exclusive create finds the file already there. -/
def EEXIST : Nat := 17

/-- os.O_WRONLY flag value. -/
def O_WRONLY : Nat := 1

/-- os.O_CREAT flag value. -/
def O_CREAT : Nat := 64

/-- os.O_EXCL flag value. -/
def O_EXCL : Nat := 128

/-- State of one path in the modelled filesystem: the file is absent,
present with some content, or every access to it fails with an errno
other than not-found (permission denied and the like). -/
inductive FileState : Type
  | absent : FileState
  | present (content : String) : FileState
  | denied (errno : Nat) : FileState
deriving DecidableEq, Repr

/-- The modelled filesystem: what state each path is in. -/
abbrev Fs : Type := String → FileState

/-- Overwrite the state of one path in the filesystem. -/
def setFile (fs : Fs) (path : String) (st : FileState) : Fs :=
  fun p => if p = path then st else fs p

/-- Errors of the PID-file primitives: a propagated filesystem errno, or
a parse failure carrying the offending path and the raw content. -/
inductive PidfileError : Type
  | ioError (errno : Nat) : PidfileError
  | parseError (path : String) (content : String) : PidfileError
deriving DecidableEq, Repr

/-- Strip trailing whitespace from a list of characters. -/
def rstripChars (cs : List Char) : List Char :=
  (cs.reverse.dropWhile Char.isWhitespace).reverse

/-- Read a nonempty list of decimal digits as a natural number,
accumulating left to right; any non-digit character yields none. -/
def parseDigitsAux : List Char → Nat → Option Nat
  | [], acc => some acc
  | c :: cs, acc =>
      if c.isDigit then parseDigitsAux cs (acc * 10 + (c.toNat - 48))
      else none

/-- Modelled from the spec: parsing of a PID file's content.  The
content is stripped of trailing whitespace and read as a decimal
integer; a non-numeric or empty string yields none. -/
def parsePid (content : String) : Option Nat :=
  match rstripChars content.data with
  | [] => none
  | c :: cs => parseDigitsAux (c :: cs) 0

/-- Modelled from the spec: read_pid_from_pidfile of daemon.pidlockfile
(the module itself is not in the source tree; only its tests are).
Open the file at the path for reading.  Not found is mapped to the
non-error result none; any other filesystem error is propagated
unchanged; content that does not parse as an integer raises a parse
error carrying the path and the raw content. -/
def read_pid_from_pidfile (path : String) (fs : Fs) :
    Except PidfileError (Option Nat) :=
  match fs path with
  | .absent => .ok none
  | .denied e => .error (.ioError e)
  | .present content =>
      match parsePid content with
      | some pid => .ok (some pid)
      | none => .error (.parseError path content)

/-- Observable events of the lock operations: the low-level file calls
of write_pid_to_pidfile, and the delegations performed by PIDLockFile
(base-lock calls and primitive calls). -/
inductive Ev : Type
  | osOpen (path : String) (flags : Nat) (mode : Nat) : Ev
  | fileWrite (s : String) : Ev
  | fileClose : Ev
  | baseAcquire (timeout : Option Int) : Ev
  | baseRelease : Ev
  | baseBreak : Ev
  | writePidCall (path : String) : Ev
  | removePidCall (path : String) : Ev
deriving DecidableEq, Repr

/-- Outcome of the data-write step of write_pid_to_pidfile once the file
has been created: the write succeeds, or fails with an errno (disk
full, device busy, ...).  This injects the failure modes the tests
simulate with a side-effect on the fake file object. -/
inductive WriteOutcome : Type
  | ok : WriteOutcome
  | fail (errno : Nat) : WriteOutcome
deriving DecidableEq, Repr

/-- Modelled from the spec: write_pid_to_pidfile of daemon.pidlockfile.
Create the file exclusively via os.open with flags
O_CREAT | O_EXCL | O_WRONLY and mode 0o644 (fail with EEXIST if it
already exists, and propagate any other open failure), write the
decimal current pid followed by one newline, and close the handle on
every exit path after a successful create, including a failed write.
Returns the result, the final filesystem, and the event trace. -/
def write_pid_to_pidfile (path : String) (pid : Nat) (fs : Fs)
    (wr : WriteOutcome) : Except Nat Unit × Fs × List Ev :=
  let openEv : Ev := .osOpen path (O_CREAT ||| O_EXCL ||| O_WRONLY) 0o644
  match fs path with
  | .present _ => (.error EEXIST, fs, [openEv])
  | .denied e => (.error e, fs, [openEv])
  | .absent =>
      match wr with
      | .ok =>
          let line : String := toString pid ++ "\n"
          (.ok (), setFile fs path (.present line),
            [openEv, .fileWrite line, .fileClose])
      | .fail e =>
          (.error e, setFile fs path (.present ""), [openEv, .fileClose])

/-- Modelled from the spec: remove_existing_pidfile of
daemon.pidlockfile.  Delete the file at the path; a not-found failure
is mapped to success (idempotent remove), any other deletion failure is
propagated unchanged. -/
def remove_existing_pidfile (path : String) (fs : Fs) :
    Except Nat Unit × Fs :=
  match fs path with
  | .absent => (.ok (), fs)
  | .present _ => (.ok (), setFile fs path .absent)
  | .denied e => (.error e, fs)

/-- The world a lock operation acts on: the filesystem together with the
base lock's state, namely the pid of the process holding the base-lock
mutex for the one path under consideration, if any.  This is the
serialization of the base-lock mutex the spec's concurrency properties
are phrased through. -/
structure World : Type where
  fs : Fs
  lockingPid : Option Nat

/-- Errors of the PIDLockFile operations, after the spec's taxonomy. -/
inductive LockError : Type
  | alreadyLocked : LockError
  | notLocked : LockError
  | notMyLock : LockError
  | lockFailed (cause : Nat) : LockError
  | ioError (errno : Nat) : LockError
deriving DecidableEq, Repr

/-- Modelled from the spec: the PIDLockFile class of daemon.pidlockfile,
holding the path of its PID file. -/
structure PIDLockFile : Type where
  path : String

/-- Modelled from the spec: PIDLockFile.acquire.  Delegate to the base
lock's acquire with the given timeout; the base lock raises
AlreadyLocked when another holder owns the mutex, and otherwise records
the caller as holder.  On success of that step only, call
write_pid_to_pidfile on the path; a failure there leaves the base lock
held and fails the operation with LockFailed wrapping the cause. -/
def PIDLockFile.acquire (lk : PIDLockFile) (myPid : Nat)
    (timeout : Option Int) (w : World) (wr : WriteOutcome) :
    Except LockError Unit × World × List Ev :=
  match w.lockingPid with
  | some _ => (.error .alreadyLocked, w, [.baseAcquire timeout])
  | none =>
      let w1 : World := { w with lockingPid := some myPid }
      match write_pid_to_pidfile lk.path myPid w1.fs wr with
      | (.ok _, fs1, tr) =>
          (.ok (), { w1 with fs := fs1 },
            .baseAcquire timeout :: .writePidCall lk.path :: tr)
      | (.error e, fs1, tr) =>
          (.error (.lockFailed e), { w1 with fs := fs1 },
            .baseAcquire timeout :: .writePidCall lk.path :: tr)

/-- Modelled from the spec: PIDLockFile.release.  Determine the current
holder through the base lock: nobody holds it, fail with NotLocked;
another process holds it, fail with NotMyLock; in both error cases
nothing on disk is touched.  Otherwise remove the PID file first, still
under the mutex, and delegate to the base lock's release afterwards. -/
def PIDLockFile.release (lk : PIDLockFile) (myPid : Nat) (w : World) :
    Except LockError Unit × World × List Ev :=
  match w.lockingPid with
  | none => (.error .notLocked, w, [])
  | some p =>
      if p = myPid then
        match remove_existing_pidfile lk.path w.fs with
        | (.ok _, fs1) =>
            (.ok (), { fs := fs1, lockingPid := none },
              [.removePidCall lk.path, .baseRelease])
        | (.error e, fs1) =>
            (.error (.ioError e), { fs := fs1, lockingPid := some p },
              [.removePidCall lk.path])
      else
        (.error .notMyLock, w, [])

/-- Modelled from the spec: PIDLockFile.break_lock.  Unconditionally
delegate to the base lock's break-lock operation, forcing the mutex
free regardless of the current holder, then unconditionally call
remove_existing_pidfile on the path. -/
def PIDLockFile.break_lock (lk : PIDLockFile) (w : World) :
    Except Nat Unit × World × List Ev :=
  let w1 : World := { w with lockingPid := none }
  match remove_existing_pidfile lk.path w1.fs with
  | (.ok _, fs1) =>
      (.ok (), { w1 with fs := fs1 }, [.baseBreak, .removePidCall lk.path])
  | (.error e, fs1) =>
      (.error e, { w1 with fs := fs1 }, [.baseBreak, .removePidCall lk.path])

/-- Modelled from the spec: PIDLockFile.read_pid, the instance-level
convenience delegating to the primitive at this lock's path. -/
def PIDLockFile.read_pid (lk : PIDLockFile) (fs : Fs) :
    Except PidfileError (Option Nat) :=
  read_pid_from_pidfile lk.path fs

/-- Embedded from src/daemon/pidfile.py: TimeoutPIDLockFile stores the
acquire_timeout given at construction next to the path it passes to the
PIDLockFile initialiser. -/
structure TimeoutPIDLockFile : Type where
  path : String
  acquire_timeout : Option Int

/-- The PIDLockFile a TimeoutPIDLockFile behaves as: same path. -/
def TimeoutPIDLockFile.toPIDLockFile (lk : TimeoutPIDLockFile) :
    PIDLockFile :=
  { path := lk.path }

/-- Embedded from src/daemon/pidfile.py, TimeoutPIDLockFile.acquire:
if timeout is None it is replaced by the stored acquire_timeout. -/
def TimeoutPIDLockFile.effective_timeout (lk : TimeoutPIDLockFile)
    (timeout : Option Int) : Option Int :=
  match timeout with
  | none => lk.acquire_timeout
  | some t => some t

/-- Embedded from src/daemon/pidfile.py, TimeoutPIDLockFile.acquire:
substitute the stored default for an absent timeout, then delegate to
the superclass acquire with the resulting timeout. -/
def TimeoutPIDLockFile.acquire (lk : TimeoutPIDLockFile) (myPid : Nat)
    (timeout : Option Int) (w : World) (wr : WriteOutcome) :
    Except LockError Unit × World × List Ev :=
  lk.toPIDLockFile.acquire myPid (lk.effective_timeout timeout) w wr

/-- TimeoutPIDLockFile overrides nothing else: release is inherited from
PIDLockFile unchanged. -/
def TimeoutPIDLockFile.release (lk : TimeoutPIDLockFile) (myPid : Nat)
    (w : World) : Except LockError Unit × World × List Ev :=
  lk.toPIDLockFile.release myPid w

/-- TimeoutPIDLockFile overrides nothing else: break_lock is inherited
from PIDLockFile unchanged. -/
def TimeoutPIDLockFile.break_lock (lk : TimeoutPIDLockFile) (w : World) :
    Except Nat Unit × World × List Ev :=
  lk.toPIDLockFile.break_lock w

/-- TimeoutPIDLockFile overrides nothing else: read_pid is inherited
from PIDLockFile unchanged. -/
def TimeoutPIDLockFile.read_pid (lk : TimeoutPIDLockFile) (fs : Fs) :
    Except PidfileError (Option Nat) :=
  lk.toPIDLockFile.read_pid fs

/-- C6: read_pid_from_pidfile returns none exactly when the file does
not exist; an existing file whose whitespace-stripped content parses as
a positive integer P yields P; an existing file whose content does not
parse as an integer raises a parse error carrying the path and the raw
content; any filesystem error other than not-found is propagated
unchanged. -/
theorem C6_read_pid_classification (path : String) (fs : Fs) :
    (read_pid_from_pidfile path fs = .ok none ↔ fs path = .absent)
    ∧ (∀ c P, fs path = .present c → parsePid c = some P → 0 < P →
        read_pid_from_pidfile path fs = .ok (some P))
    ∧ (∀ c, fs path = .present c → parsePid c = none →
        read_pid_from_pidfile path fs = .error (.parseError path c))
    ∧ (∀ e, fs path = .denied e →
        read_pid_from_pidfile path fs = .error (.ioError e)) := by
  refine ⟨?_, ?_, ?_, ?_⟩
  · cases h : fs path with
    | absent => simp [read_pid_from_pidfile, h]
    | present c =>
        cases hp : parsePid c with
        | none => simp [read_pid_from_pidfile, h, hp]
        | some p => simp [read_pid_from_pidfile, h, hp]
    | denied e => simp [read_pid_from_pidfile, h]
  · intro c P hc hp _
    simp [read_pid_from_pidfile, hc, hp]
  · intro c hc hp
    simp [read_pid_from_pidfile, hc, hp]
  · intro e he
    simp [read_pid_from_pidfile, he]

/-- Witness for C6 at concrete inputs: a PID file holding the bytes
b0gUs raises the parse error carrying the path and that content. -/
theorem C6_witness :
    read_pid_from_pidfile "pidfile" (fun _ => .present "b0gUs")
      = .error (.parseError "pidfile" "b0gUs") :=
  (C6_read_pid_classification "pidfile"
    (fun _ => .present "b0gUs")).2.2.1 "b0gUs" rfl (by decide)

/-- C7: write_pid_to_pidfile opens with an exclusive create, flags
O_CREAT, O_EXCL and O_WRONLY and mode 0o644; it fails without
overwriting when the file already exists; after a successful create it
closes the handle on every exit path, a failed write included; on full
success the file holds exactly the decimal pid followed by one newline
and nothing else. -/
theorem C7_write_pid (path : String) (pid : Nat) (fs : Fs)
    (wr : WriteOutcome) :
    ((write_pid_to_pidfile path pid fs wr).2.2).head?
        = some (.osOpen path (O_CREAT ||| O_EXCL ||| O_WRONLY) 0o644)
    ∧ (∀ c, fs path = .present c →
        (write_pid_to_pidfile path pid fs wr).1 = .error EEXIST
        ∧ (write_pid_to_pidfile path pid fs wr).2.1 path = .present c)
    ∧ (fs path = .absent →
        Ev.fileClose ∈ (write_pid_to_pidfile path pid fs wr).2.2)
    ∧ (fs path = .absent → wr = .ok →
        (write_pid_to_pidfile path pid fs wr).1 = .ok ()
        ∧ (write_pid_to_pidfile path pid fs wr).2.1 path
            = .present (toString pid ++ "\n")
        ∧ (write_pid_to_pidfile path pid fs wr).2.2
            = [.osOpen path (O_CREAT ||| O_EXCL ||| O_WRONLY) 0o644,
               .fileWrite (toString pid ++ "\n"), .fileClose]) := by
  refine ⟨?_, ?_, ?_, ?_⟩
  · cases h : fs path with
    | absent =>
        cases wr with
        | ok => simp [write_pid_to_pidfile, h]
        | fail e => simp [write_pid_to_pidfile, h]
    | present c => simp [write_pid_to_pidfile, h]
    | denied e => simp [write_pid_to_pidfile, h]
  · intro c hc
    simp [write_pid_to_pidfile, hc]
  · intro h
    cases wr with
    | ok => simp [write_pid_to_pidfile, h]
    | fail e => simp [write_pid_to_pidfile, h]
  · intro h hwr
    subst hwr
    simp [write_pid_to_pidfile, h, setFile]

/-- Witness for C7 at concrete inputs: writing pid 235 to an absent
path leaves a file whose content is the decimal pid and a newline. -/
theorem C7_witness :
    (write_pid_to_pidfile "pidfile" 235 (fun _ => .absent) .ok).2.1 "pidfile"
      = .present (toString 235 ++ "\n") :=
  ((C7_write_pid "pidfile" 235 (fun _ => .absent) .ok).2.2.2 rfl rfl).2.1

/-- C8: remove_existing_pidfile succeeds and changes nothing when no
file exists at the path, and propagates unchanged any deletion failure
other than not-found. -/
theorem C8_remove_idempotent (path : String) (fs : Fs) :
    (fs path = .absent → remove_existing_pidfile path fs = (.ok (), fs))
    ∧ (∀ e, fs path = .denied e →
        remove_existing_pidfile path fs = (.error e, fs)) := by
  constructor
  · intro h
    simp [remove_existing_pidfile, h]
  · intro e h
    simp [remove_existing_pidfile, h]

/-- Witness for C8 at concrete inputs: removing a never-written path
succeeds and leaves the filesystem as it was. -/
theorem C8_witness :
    remove_existing_pidfile "pidfile" (fun _ => .absent)
      = (.ok (), fun _ => .absent) :=
  (C8_remove_idempotent "pidfile" (fun _ => .absent)).1 rfl

/-- C1: acquire first delegates to the base lock's acquire with the
given timeout unchanged; the PID write is performed exactly when that
step succeeds; and when the write fails after a successful base
acquire, the operation fails with LockFailed wrapping the underlying
cause. -/
theorem C1_acquire_delegates (lk : PIDLockFile) (myPid : Nat)
    (timeout : Option Int) (w : World) (wr : WriteOutcome) :
    ((lk.acquire myPid timeout w wr).2.2).head?
        = some (.baseAcquire timeout)
    ∧ (Ev.writePidCall lk.path ∈ (lk.acquire myPid timeout w wr).2.2
        ↔ w.lockingPid = none)
    ∧ (∀ e, w.lockingPid = none →
        (write_pid_to_pidfile lk.path myPid w.fs wr).1 = .error e →
        (lk.acquire myPid timeout w wr).1 = .error (.lockFailed e)) := by
  refine ⟨?_, ?_, ?_⟩
  · cases hl : w.lockingPid with
    | some p => simp [PIDLockFile.acquire, hl]
    | none =>
        cases hfs : w.fs lk.path with
        | absent =>
            cases wr with
            | ok => simp [PIDLockFile.acquire, write_pid_to_pidfile, hl, hfs]
            | fail e => simp [PIDLockFile.acquire, write_pid_to_pidfile, hl, hfs]
        | present c => simp [PIDLockFile.acquire, write_pid_to_pidfile, hl, hfs]
        | denied e => simp [PIDLockFile.acquire, write_pid_to_pidfile, hl, hfs]
  · cases hl : w.lockingPid with
    | some p => simp [PIDLockFile.acquire, hl]
    | none =>
        cases hfs : w.fs lk.path with
        | absent =>
            cases wr with
            | ok => simp [PIDLockFile.acquire, write_pid_to_pidfile, hl, hfs]
            | fail e => simp [PIDLockFile.acquire, write_pid_to_pidfile, hl, hfs]
        | present c => simp [PIDLockFile.acquire, write_pid_to_pidfile, hl, hfs]
        | denied e => simp [PIDLockFile.acquire, write_pid_to_pidfile, hl, hfs]
  · intro e hl hw
    cases hfs : w.fs lk.path with
    | absent =>
        cases wr with
        | ok => simp [write_pid_to_pidfile, hfs] at hw
        | fail e2 =>
            simp [write_pid_to_pidfile, hfs] at hw
            simp [PIDLockFile.acquire, write_pid_to_pidfile, hl, hfs, hw]
    | present c =>
        simp [write_pid_to_pidfile, hfs] at hw
        simp [PIDLockFile.acquire, write_pid_to_pidfile, hl, hfs, hw]
    | denied e2 =>
        simp [write_pid_to_pidfile, hfs] at hw
        simp [PIDLockFile.acquire, write_pid_to_pidfile, hl, hfs, hw]

/-- Witness for C1 at concrete inputs: with a free base lock and a
write that fails with EBUSY, acquire fails with LockFailed wrapping
that errno. -/
theorem C1_witness :
    (PIDLockFile.acquire ⟨"pidfile"⟩ 235 none
        ⟨fun _ => .absent, none⟩ (.fail EBUSY)).1
      = .error (.lockFailed EBUSY) :=
  (C1_acquire_delegates ⟨"pidfile"⟩ 235 none
    ⟨fun _ => .absent, none⟩ (.fail EBUSY)).2.2 EBUSY rfl rfl

/-- C2: with the two attempts serialized through the base-lock mutex,
the first acquire on a path with no PID file succeeds, and the second,
from a different pid, fails with AlreadyLocked, leaves the world
exactly as the first left it, and performs no file operation at all. -/
theorem C2_exclusivity (path : String) (pidA pidB : Nat)
    (_hne : pidA ≠ pidB) (tA tB : Option Int) (w : World)
    (hl : w.lockingPid = none) (hfs : w.fs path = .absent)
    (wrB : WriteOutcome) :
    (PIDLockFile.acquire ⟨path⟩ pidA tA w .ok).1 = .ok ()
    ∧ (PIDLockFile.acquire ⟨path⟩ pidB tB
        (PIDLockFile.acquire ⟨path⟩ pidA tA w .ok).2.1 wrB).1
        = .error .alreadyLocked
    ∧ (PIDLockFile.acquire ⟨path⟩ pidB tB
        (PIDLockFile.acquire ⟨path⟩ pidA tA w .ok).2.1 wrB).2.1
        = (PIDLockFile.acquire ⟨path⟩ pidA tA w .ok).2.1
    ∧ (PIDLockFile.acquire ⟨path⟩ pidB tB
        (PIDLockFile.acquire ⟨path⟩ pidA tA w .ok).2.1 wrB).2.2
        = [.baseAcquire tB] := by
  refine ⟨?_, ?_, ?_, ?_⟩ <;>
    simp [PIDLockFile.acquire, write_pid_to_pidfile, hl, hfs]

/-- Witness for C2 at concrete inputs: pid 235 acquires the free lock,
then pid 8642 fails with AlreadyLocked. -/
theorem C2_witness :
    (PIDLockFile.acquire ⟨"pidfile"⟩ 235 none
        ⟨fun _ => .absent, none⟩ .ok).1 = .ok ()
    ∧ (PIDLockFile.acquire ⟨"pidfile"⟩ 8642 none
        (PIDLockFile.acquire ⟨"pidfile"⟩ 235 none
          ⟨fun _ => .absent, none⟩ .ok).2.1 .ok).1
        = .error .alreadyLocked := by
  have h := C2_exclusivity "pidfile" 235 8642 (by decide) none none
    ⟨fun _ => .absent, none⟩ rfl rfl .ok
  exact ⟨h.1, h.2.1⟩

/-- C3: release fails with NotLocked when nobody holds the base lock,
and with NotMyLock when another process holds it and the PID file
records that other pid; in both error cases the world, the PID file
included, is unchanged and no removal is performed. -/
theorem C3_release_guards (path : String) (myPid otherPid : Nat)
    (w : World) :
    (w.lockingPid = none →
        (PIDLockFile.release ⟨path⟩ myPid w).1 = .error .notLocked
        ∧ (PIDLockFile.release ⟨path⟩ myPid w).2.1 = w
        ∧ (PIDLockFile.release ⟨path⟩ myPid w).2.2 = [])
    ∧ (w.lockingPid = some otherPid → otherPid ≠ myPid →
        w.fs path = .present (toString otherPid ++ "\n") →
        (PIDLockFile.release ⟨path⟩ myPid w).1 = .error .notMyLock
        ∧ (PIDLockFile.release ⟨path⟩ myPid w).2.1 = w
        ∧ (PIDLockFile.release ⟨path⟩ myPid w).2.2 = []) := by
  constructor
  · intro hl
    simp [PIDLockFile.release, hl]
  · intro hl hne _
    simp [PIDLockFile.release, hl, hne]

/-- Witness for C3 at concrete inputs: releasing while pid 8642 holds
the lock and the PID file records 8642 fails with NotMyLock for
pid 235, and the world is untouched. -/
theorem C3_witness :
    (PIDLockFile.release ⟨"pidfile"⟩ 235
        ⟨fun _ => .present (toString 8642 ++ "\n"), some 8642⟩).1
      = .error .notMyLock :=
  ((C3_release_guards "pidfile" 235 8642
      ⟨fun _ => .present (toString 8642 ++ "\n"), some 8642⟩).2
    rfl (by decide) rfl).1

/-- C4: on the successful release path the event trace is exactly the
removal of the PID file followed by the base lock's release, so the
base-lock release is never invoked before the PID-file removal. -/
theorem C4_release_order (path : String) (myPid : Nat) (w : World)
    (hl : w.lockingPid = some myPid)
    (hfs : w.fs path = .present (toString myPid ++ "\n")) :
    (PIDLockFile.release ⟨path⟩ myPid w).2.2
        = [.removePidCall path, .baseRelease]
    ∧ (PIDLockFile.release ⟨path⟩ myPid w).1 = .ok () := by
  constructor <;> simp [PIDLockFile.release, remove_existing_pidfile, hl, hfs]

/-- Witness for C4 at concrete inputs: pid 235 holding the lock with
its own pid on file releases with the removal strictly before the
base-lock release. -/
theorem C4_witness :
    (PIDLockFile.release ⟨"pidfile"⟩ 235
        ⟨fun _ => .present (toString 235 ++ "\n"), some 235⟩).2.2
      = [.removePidCall "pidfile", .baseRelease] :=
  (C4_release_order "pidfile" 235
    ⟨fun _ => .present (toString 235 ++ "\n"), some 235⟩ rfl rfl).1

/-- C5: break_lock delegates to the base lock's break-lock operation
and then removes the PID file, both unconditionally and in that order,
whoever the current holder is; it succeeds also when the PID file was
already absent, and afterwards read_pid_from_pidfile returns none. -/
theorem C5_break_lock (path : String) (w : World)
    (hfs : w.fs path = .absent ∨ ∃ c, w.fs path = .present c) :
    (PIDLockFile.break_lock ⟨path⟩ w).1 = .ok ()
    ∧ (PIDLockFile.break_lock ⟨path⟩ w).2.2
        = [.baseBreak, .removePidCall path]
    ∧ (PIDLockFile.break_lock ⟨path⟩ w).2.1.lockingPid = none
    ∧ read_pid_from_pidfile path (PIDLockFile.break_lock ⟨path⟩ w).2.1.fs
        = .ok none := by
  rcases hfs with h | ⟨c, h⟩ <;>
    simp [PIDLockFile.break_lock, remove_existing_pidfile,
      read_pid_from_pidfile, setFile, h]

/-- Witness for C5 at concrete inputs: breaking a lock whose PID file
records the dead pid 8642 succeeds, and reading the pid afterwards
returns none. -/
theorem C5_witness :
    (PIDLockFile.break_lock ⟨"pidfile"⟩
        ⟨fun _ => .present (toString 8642 ++ "\n"), some 8642⟩).1 = .ok ()
    ∧ read_pid_from_pidfile "pidfile"
        (PIDLockFile.break_lock ⟨"pidfile"⟩
          ⟨fun _ => .present (toString 8642 ++ "\n"), some 8642⟩).2.1.fs
        = .ok none := by
  have h := C5_break_lock "pidfile"
    ⟨fun _ => .present (toString 8642 ++ "\n"), some 8642⟩
    (Or.inr ⟨toString 8642 ++ "\n", rfl⟩)
  exact ⟨h.1, h.2.2.2⟩

/-- C9: a TimeoutPIDLockFile built with a path and an acquire_timeout
delegates acquire with the stored timeout when none is given, with the
caller's timeout unchanged when one is given, and passes every other
operation through to the PIDLockFile on the same path unmodified. -/
theorem C9_timeout_default (path : String) (ato : Option Int)
    (myPid : Nat) (w : World) (wr : WriteOutcome) :
    (TimeoutPIDLockFile.acquire ⟨path, ato⟩ myPid none w wr
        = PIDLockFile.acquire ⟨path⟩ myPid ato w wr)
    ∧ (∀ t : Int, TimeoutPIDLockFile.acquire ⟨path, ato⟩ myPid (some t) w wr
        = PIDLockFile.acquire ⟨path⟩ myPid (some t) w wr)
    ∧ (∀ p w1, TimeoutPIDLockFile.release ⟨path, ato⟩ p w1
        = PIDLockFile.release ⟨path⟩ p w1)
    ∧ (∀ w1, TimeoutPIDLockFile.break_lock ⟨path, ato⟩ w1
        = PIDLockFile.break_lock ⟨path⟩ w1)
    ∧ (∀ f, TimeoutPIDLockFile.read_pid ⟨path, ato⟩ f
        = PIDLockFile.read_pid ⟨path⟩ f) :=
  ⟨rfl, fun _ => rfl, fun _ _ => rfl, fun _ => rfl, fun _ => rfl⟩

/-- C10: the decorator cannot tell an explicit None timeout from an
omitted one: a none timeout is always replaced by the stored
acquire_timeout before delegating, so whenever a non-None default was
stored, the delegated timeout is never none. -/
theorem C10_none_not_forceable (path : String) (ato : Option Int)
    (myPid : Nat) (w : World) (wr : WriteOutcome) :
    TimeoutPIDLockFile.effective_timeout ⟨path, ato⟩ none = ato
    ∧ (TimeoutPIDLockFile.acquire ⟨path, ato⟩ myPid none w wr
        = PIDLockFile.acquire ⟨path⟩ myPid ato w wr)
    ∧ (∀ tin : Option Int,
        TimeoutPIDLockFile.acquire ⟨path, ato⟩ myPid tin w wr
          = PIDLockFile.acquire ⟨path⟩ myPid
              (TimeoutPIDLockFile.effective_timeout ⟨path, ato⟩ tin) w wr)
    ∧ (∀ d : Int, ato = some d → ∀ tin : Option Int,
        TimeoutPIDLockFile.effective_timeout ⟨path, ato⟩ tin ≠ none) := by
  refine ⟨rfl, rfl, fun tin => rfl, ?_⟩
  intro d hd tin
  cases tin with
  | none => simp [TimeoutPIDLockFile.effective_timeout, hd]
  | some t => simp [TimeoutPIDLockFile.effective_timeout]

/-- Witness for C10 at concrete inputs: with a stored default of 5
seconds, an explicitly passed None timeout is replaced by the default,
never delegated as None. -/
theorem C10_witness :
    TimeoutPIDLockFile.effective_timeout ⟨"pidfile", some 5⟩ none ≠ none :=
  (C10_none_not_forceable "pidfile" (some 5) 235
    ⟨fun _ => .absent, none⟩ .ok).2.2.2 5 rfl none

end PythonDaemon
